import Mathlib

/-!
Verification of the quiz-generation and quiz-progression core of `src/app.py`
(a retrieval-augmented chat and quiz assistant).

Strings are embedded as `List Char` so that every operation is a structural,
executable definition.  The Python string methods used by the source
(`str.split`, `str.strip`, `str.lower`, `str.upper`, `str.isdigit`, the `in`
operator, indexing `[0]` and `[-1]`) are each given a faithful translation
below, and the core functions (`generate_quiz_questions_with_rag`,
`submit_answer`, `next_question`, `chat_response`) are translated line by
line from the source.  A `none` result models an uncaught Python exception
(`IndexError`); all other paths return `some` of the values the handler
returns to the UI layer.
-/

/-- Python `sub.isPrefixOf s` check used by the splitter: `beginsWith sub s`
is true when the pattern `sub` begins the list `s`. -/
def beginsWith : List Char → List Char → Bool
  | [], _ => true
  | _ :: _, [] => false
  | a :: as, b :: bs => a == b && beginsWith as bs

/-- Worker for `pySplit`: scans `s` left to right with explicit fuel
(one unit per consumed character), emitting the accumulated token whenever
the separator matches, exactly like CPython `str.split(sep)`. -/
def splitAux (sep : List Char) : Nat → List Char → List Char → List (List Char)
  | 0, acc, _ => [acc.reverse]
  | _ + 1, acc, [] => [acc.reverse]
  | fuel + 1, acc, c :: rest =>
    if beginsWith sep (c :: rest) then
      acc.reverse :: splitAux sep fuel [] (List.drop sep.length (c :: rest))
    else
      splitAux sep fuel (c :: acc) rest

/-- Python `s.split(sep)` for a non-empty separator: splits at every
non-overlapping occurrence of `sep`, keeping empty tokens (so consecutive
separators produce empty strings, as in Python).  All separators used by
`app.py` are non-empty literals. -/
def pySplit (s sep : List Char) : List (List Char) :=
  if sep.isEmpty then [s] else splitAux sep s.length [] s

/-- Python `s.strip()`: removes leading and trailing whitespace. -/
def pyStrip (s : List Char) : List Char :=
  ((s.dropWhile Char.isWhitespace).reverse.dropWhile Char.isWhitespace).reverse

/-- Python `s.lower()` (ASCII). -/
def pyLower (s : List Char) : List Char := s.map Char.toLower

/-- Python `s.upper()` (ASCII). -/
def pyUpper (s : List Char) : List Char := s.map Char.toUpper

/-- Python `sub in s` substring test (for the non-empty literal patterns the
source uses). -/
def pyContains (s sub : List Char) : Bool :=
  match s with
  | [] => sub.isEmpty
  | _ :: rest => beginsWith sub s || pyContains rest sub

/-- Python `s.isdigit()` restricted to ASCII: non-empty and all decimal
digits. -/
def pyIsDigit (s : List Char) : Bool := !s.isEmpty && s.all Char.isDigit

/-- Python `int(s)` for a string of decimal digits. -/
def intOfDigits (s : List Char) : Nat :=
  s.foldl (fun n c => 10 * n + (c.toNat - 48)) 0

/-! ## Data model (spec section 3, `app.py` lines 92-102) -/

/-- One parsed quiz item, the tuple
(question_text, options, correct_answer, explanation) appended by
`generate_quiz_questions_with_rag` in `app.py` line 98. -/
structure Question where
  prompt_text : List Char
  option_labels : List (List Char)
  correct_label : List Char
  explanation : List Char
deriving DecidableEq

/-- Marker `"Correct Answer:"` (`app.py` lines 93-95). -/
def correctAnswerMarker : List Char := "Correct Answer:".data

/-- Marker `"Explanation:"` (`app.py` lines 93-96). -/
def explanationMarker : List Char := "Explanation:".data

/-- Block separator `"\n\n"` (`app.py` line 90). -/
def blockSep : List Char := "\n\n".data

/-- A block is accepted iff both markers occur in it (`app.py` line 93). -/
def acceptBlock (question : List Char) : Bool :=
  pyContains question correctAnswerMarker && pyContains question explanationMarker

/-- Field extraction for one accepted block (`app.py` lines 94-98):
prompt text is everything before the first `"Correct Answer:"`; the correct
label is the text after the last `"Correct Answer:"` and before the next
`"Explanation:"`, stripped; the explanation is the text after the last
`"Explanation:"`, stripped; the option labels are the fixed list
A, B, C, D regardless of block content. -/
def parseBlock (question : List Char) : Question :=
  { prompt_text := pyStrip ((pySplit question correctAnswerMarker).headD [])
  , option_labels := ["A".data, "B".data, "C".data, "D".data]
  , correct_label :=
      pyStrip ((pySplit ((pySplit question correctAnswerMarker).getLastD [])
        explanationMarker).headD [])
  , explanation := pyStrip ((pySplit question explanationMarker).getLastD []) }

/-- The parsing loop of `generate_quiz_questions_with_rag`
(`app.py` lines 87-100): strip the completion text, split on blank lines,
keep the blocks holding both markers, parse each, truncate to
`num_questions`. -/
def parse_quiz_text (content : List Char) (num_questions : Nat) : List Question :=
  (((pySplit (pyStrip content) blockSep).filter acceptBlock).map parseBlock).take
    num_questions

/-- The blocks of the (stripped) completion text that carry both markers, in
order of appearance. -/
def acceptedBlocks (content : List Char) : List (List Char) :=
  (pySplit (pyStrip content) blockSep).filter acceptBlock

/-- The sentinel returned when the completion call raises
(`app.py` line 102). -/
def sentinelQuestion : Question :=
  { prompt_text := "Error: Failed to generate quiz.".data
  , option_labels := []
  , correct_label := "N/A".data
  , explanation := "No explanation available.".data }

/-- `generate_quiz_questions_with_rag` (`app.py` lines 57-102), with the
completion call abstracted as its outcome: on success the raw text is parsed
(lines 87-100); on any exception the single sentinel question is returned
(lines 101-102). -/
def generate_quiz_questions_with_rag (completion : Except (List Char) (List Char))
    (num_questions : Nat) : List Question :=
  match completion with
  | Except.ok content => parse_quiz_text content num_questions
  | Except.error _ => [sentinelQuestion]

/-! ## Quiz session state (`app.py` lines 16-18, 141-183) -/

/-- The process-wide mutable quiz state: globals `quiz_data`,
`current_question`, `answer_submitted` (`app.py` lines 16-18). -/
structure QuizState where
  quiz_data : List Question
  current_question : Nat
  answer_submitted : Bool
deriving DecidableEq

/-- The values `submit_answer` returns to the UI (`app.py` lines 160, 163):
feedback text and the two button-enabled flags, plus the mutated globals. -/
structure SubmitOut where
  feedback : List Char
  submit_interactive : Bool
  next_interactive : Bool
  state : QuizState
deriving DecidableEq

/-- The values `next_question` returns (`app.py` lines 175, 178, 181):
question box text, answer choices, feedback text, the two button-enabled
flags, plus the mutated globals. -/
structure NextOut where
  question_box : List Char
  choices : List (List Char)
  feedback : List Char
  submit_interactive : Bool
  next_interactive : Bool
  state : QuizState
deriving DecidableEq

/-- Feedback string literals of `submit_answer` (`app.py` lines 157, 163). -/
def correctMsg : List Char := "✅ Correct!".data

/-- First fragment of the incorrect-answer feedback (`app.py` line 157). -/
def incorrectMsgA : List Char := "❌ Incorrect. The correct answer is: ".data

/-- Second fragment of the incorrect-answer feedback (`app.py` line 157). -/
def incorrectMsgB : List Char := "\n\n💡 Explanation: ".data

/-- Out-of-range feedback of `submit_answer` (`app.py` line 163). -/
def noMoreQuestionsMsg : List Char := "No more questions!".data

/-- `submit_answer(user_answer)` (`app.py` lines 141-163).  When
`current_question < len(quiz_data)` the handler takes the first character of
`user_answer.strip()` (an uncaught `IndexError`, modelled as `none`, when the
stripped answer is empty), uppercases it, compares it with
`correct_answer.strip().upper()`, sets `answer_submitted = True` and returns
feedback; otherwise it returns "No more questions!" and changes nothing. -/
def submit_answer (st : QuizState) (user_answer : List Char) : Option SubmitOut :=
  if h : st.current_question < st.quiz_data.length then
    match pyStrip user_answer with
    | [] => none
    | c :: _ =>
      some { feedback :=
               if [c.toUpper] ==
                   pyUpper (pyStrip (st.quiz_data.get
                     ⟨st.current_question, h⟩).correct_label) then
                 correctMsg
               else
                 incorrectMsgA ++
                   (st.quiz_data.get ⟨st.current_question, h⟩).correct_label ++
                   incorrectMsgB ++
                   (st.quiz_data.get ⟨st.current_question, h⟩).explanation
           , submit_interactive := false
           , next_interactive := true
           , state := { st with answer_submitted := true } }
  else
    some { feedback := noMoreQuestionsMsg
         , submit_interactive := false
         , next_interactive := false
         , state := st }

/-- Question box message of the one-question branch (`app.py` line 178). -/
def noMoreAvailableMsg : List Char := "No more questions available!".data

/-- Question box message of the final branch (`app.py` line 181). -/
def quizCompletedMsg : List Char := "Quiz completed!".data

/-- Feedback of both terminal branches (`app.py` lines 178, 181). -/
def quizFinishedMsg : List Char := "Quiz finished!".data

/-- `next_question()` (`app.py` lines 168-181).  Only when
`answer_submitted and current_question < len(quiz_data) - 1` does the
position advance (and `answer_submitted` reset); otherwise the globals are
untouched and a terminal message is returned, chosen by whether exactly one
question exists. -/
def next_question (st : QuizState) : NextOut :=
  if h : st.answer_submitted = true ∧
      st.current_question < st.quiz_data.length - 1 then
    { question_box :=
        (st.quiz_data.get ⟨st.current_question + 1, by omega⟩).prompt_text
    , choices :=
        (st.quiz_data.get ⟨st.current_question + 1, by omega⟩).option_labels
    , feedback := []
    , submit_interactive := true
    , next_interactive := false
    , state := { st with
                 current_question := st.current_question + 1,
                 answer_submitted := false } }
  else if st.quiz_data.length = 1 then
    { question_box := noMoreAvailableMsg
    , choices := []
    , feedback := quizFinishedMsg
    , submit_interactive := false
    , next_interactive := false
    , state := st }
  else
    { question_box := quizCompletedMsg
    , choices := []
    , feedback := quizFinishedMsg
    , submit_interactive := false
    , next_interactive := false
    , state := st }

/-! ## Chat router (`app.py` lines 222-243) -/

/-- Classification keyword `"quiz"` (`app.py` line 225). -/
def quizWord : List Char := "quiz".data

/-- Classification keyword `"summarize"` (`app.py` line 237). -/
def summarizeWord : List Char := "summarize".data

/-- Classification keyword `"summarise"` (`app.py` line 237). -/
def summariseWord : List Char := "summarise".data

/-- Separator of `query.split(" ")` (`app.py` line 226): a single space. -/
def spaceSep : List Char := " ".data

/-- The count computation of the quiz branch (`app.py` line 226):
`int(query.split(" ")[2]) if query.split(" ")[2].isdigit() else 5`.
`query.split(" ")` splits on each single space character; when it has fewer
than three tokens the index raises an uncaught `IndexError`, modelled as
`none`. -/
def quiz_count_of_query (query : List Char) : Option Nat :=
  match pySplit query spaceSep with
  | _ :: _ :: t :: _ => some (if pyIsDigit t then intOfDigits t else 5)
  | _ => none

/-- The tagged routing outcome of `chat_response` (spec section 4.3). -/
inductive RoutedAction where
  | startQuiz (count : Nat)
  | summarize
  | answer
deriving DecidableEq

/-- The classification and count logic of `chat_response`
(`app.py` lines 222-243): a query containing "quiz" (case-insensitive)
starts a quiz with the count of `quiz_count_of_query`; otherwise a query
containing "summarize" or "summarise" is summarized; anything else is a
plain answer.  `none` models the uncaught `IndexError` of the count
computation. -/
def chat_route (query : List Char) : Option RoutedAction :=
  if pyContains (pyLower query) quizWord then
    (quiz_count_of_query query).map RoutedAction.startQuiz
  else if pyContains (pyLower query) summarizeWord ||
      pyContains (pyLower query) summariseWord then
    some RoutedAction.summarize
  else
    some RoutedAction.answer

/-- The state reset of the quiz branch of `chat_response`
(`app.py` lines 227-230): `quiz_data` replaced, `current_question = 0`,
`answer_submitted = False`. -/
def start_quiz_state (qs : List Question) : QuizState :=
  { quiz_data := qs, current_question := 0, answer_submitted := false }

/-- A quiz session state is reachable when it arises from the initial
globals (`app.py` lines 16-18) by any sequence of the three state-mutating
handlers: the quiz branch of `chat_response` (with any parsed question
list), `submit_answer` (when it returns, i.e. does not raise), and
`next_question`. -/
inductive Reachable : QuizState → Prop where
  | init : Reachable { quiz_data := [], current_question := 0, answer_submitted := false }
  | start (st : QuizState) (qs : List Question) (h : Reachable st) :
      Reachable (start_quiz_state qs)
  | submit (st : QuizState) (ans : List Char) (out : SubmitOut) (h : Reachable st)
      (hs : submit_answer st ans = some out) : Reachable out.state
  | next (st : QuizState) (h : Reachable st) : Reachable (next_question st).state

/-! ## Definitions taken from the specification text, for comparison with the
code.  Each is a direct transcription of the spec sentence it cites, used to
state refinement claims and counterexamples against the source-derived
definitions above. -/

/-- Worker for `pyWhitespaceSplit`: cuts at every whitespace character. -/
def wsSplitAux : List Char → List Char → List (List Char)
  | acc, [] => [acc.reverse]
  | acc, c :: rest =>
    if c.isWhitespace then acc.reverse :: wsSplitAux [] rest
    else wsSplitAux (c :: acc) rest

/-- Modelled from the spec: whitespace-separated tokens of a query, i.e.
Python `query.split()` with no argument (runs of whitespace collapse and
yield no empty tokens).  The spec's count rule speaks of "the third
whitespace-separated token"; the code instead uses `query.split(" ")`. -/
def pyWhitespaceSplit (s : List Char) : List (List Char) :=
  (wsSplitAux [] s).filter (fun t => !t.isEmpty)

/-- Modelled from the spec: "`count` is parsed from the third
whitespace-separated token of the original query if that token is a base-10
integer literal; otherwise defaults to 5." -/
def spec_quiz_count (query : List Char) : Nat :=
  match pyWhitespaceSplit query with
  | _ :: _ :: t :: _ => if pyIsDigit t then intOfDigits t else 5
  | _ => 5

/-- Modelled from the spec: "take the first character of `selected_label`,
uppercase it, compare to `correct_label` (also uppercased) for equality" —
note the spec takes the first character of the label as supplied, without
stripping it first. -/
def spec_first_char_is_correct (selected_label correct_label : List Char) : Bool :=
  match selected_label with
  | [] => false
  | c :: _ => [c.toUpper] == pyUpper correct_label

/-- Modelled from the spec: the "cannot advance yet." report that section
4.2 says `advance` gives while not in the Submitted state.  No string of
`app.py` carries this text. -/
def cannotAdvanceMsg : List Char := "cannot advance yet.".data

/-! ## Concrete fixtures used by counterexamples and witnesses -/

/-- A question whose correct label is A. -/
def questionA : Question :=
  { prompt_text := "Question: pick A".data
  , option_labels := ["A".data, "B".data, "C".data, "D".data]
  , correct_label := "A".data
  , explanation := "A is right.".data }

/-- A question whose correct label is B. -/
def questionB : Question :=
  { prompt_text := "Question: pick B".data
  , option_labels := ["A".data, "B".data, "C".data, "D".data]
  , correct_label := "B".data
  , explanation := "B is right.".data }

/-- A one-question session whose answer has already been submitted. -/
def submittedStateA : QuizState :=
  { quiz_data := [questionA], current_question := 0, answer_submitted := true }

/-- A fresh one-question session awaiting its answer. -/
def freshStateB : QuizState :=
  { quiz_data := [questionB], current_question := 0, answer_submitted := false }

/-- A fresh two-question session awaiting its first answer. -/
def twoQuestionFresh : QuizState :=
  { quiz_data := [questionA, questionB], current_question := 0, answer_submitted := false }

/-- A block whose correct-answer text is the lowercase letter c. -/
def blockLowercase : List Char :=
  "Question: Q?\nCorrect Answer: c\nExplanation: because".data

/-- A one-question session whose single answer has been submitted
(position at the last index). -/
def oneQuestionSubmittedA : QuizState :=
  { quiz_data := [questionA], current_question := 0, answer_submitted := true }

/-! ## Helper lemmas -/

/-- When the separator occurs nowhere in `s` (and there is enough fuel), the
split worker returns the single token formed by the accumulator and the rest
of the input. -/
theorem splitAux_of_not_contains (sub : List Char) :
    ∀ (fuel : Nat) (s acc : List Char), s.length ≤ fuel →
      pyContains s sub = false → splitAux sub fuel acc s = [acc.reverse ++ s] := by
  intro fuel
  induction fuel with
  | zero =>
    intro s acc hlen _
    have hs : s = [] := List.length_eq_zero.mp (Nat.le_zero.mp hlen)
    subst hs
    simp [splitAux]
  | succ n ih =>
    intro s acc hlen hc
    cases s with
    | nil => simp [splitAux]
    | cons c rest =>
      have hc2 : beginsWith sub (c :: rest) = false ∧ pyContains rest sub = false := by
        have : (beginsWith sub (c :: rest) || pyContains rest sub) = false := hc
        exact Bool.or_eq_false_iff.mp this
      have hlen2 : rest.length ≤ n := by simpa using hlen
      calc splitAux sub (n + 1) acc (c :: rest)
          = splitAux sub n (c :: acc) rest := by
            simp [splitAux, hc2.1]
        _ = [(c :: acc).reverse ++ rest] := ih rest (c :: acc) hlen2 hc2.2
        _ = [acc.reverse ++ (c :: rest)] := by simp

/-- When the (non-empty) separator occurs nowhere in `s`, Python split
returns the one-element list holding `s` itself. -/
theorem pySplit_of_not_contains (s sub : List Char)
    (hc : pyContains s sub = false) : pySplit s sub = [s] := by
  unfold pySplit
  by_cases he : sub.isEmpty
  · simp [he]
  · rw [if_neg he]
    simpa using splitAux_of_not_contains sub s.length s [] (Nat.le_refl _) hc

/-- A two-token split certifies that the separator occurs in the string. -/
theorem contains_of_pySplit_pair (s sub p r : List Char)
    (h : pySplit s sub = [p, r]) : pyContains s sub = true := by
  cases hb : pyContains s sub with
  | true => rfl
  | false =>
    rw [pySplit_of_not_contains s sub hb] at h
    cases h

/-- `submit_answer` either leaves the globals untouched or merely sets
`answer_submitted`; `quiz_data` and `current_question` never change
(`app.py` lines 141-163 assign only `answer_submitted`). -/
theorem submit_answer_state_cases (st : QuizState) (ans : List Char)
    (out : SubmitOut) (h : submit_answer st ans = some out) :
    out.state = st ∨ out.state = { st with answer_submitted := true } := by
  unfold submit_answer at h
  by_cases hp : st.current_question < st.quiz_data.length
  · rw [dif_pos hp] at h
    cases hs : pyStrip ans with
    | nil => rw [hs] at h; cases h
    | cons c rest =>
      rw [hs] at h
      right
      have h2 := Option.some.inj h
      rw [← h2]
  · rw [dif_neg hp] at h
    left
    have h2 := Option.some.inj h
    rw [← h2]

/-- `next_question` either leaves the globals untouched or advances the
position by exactly one, and it advances only when the answer was submitted
and the position is below the last index (`app.py` lines 168-181). -/
theorem next_question_state_cases (st : QuizState) :
    (next_question st).state = st ∨
      ((next_question st).state.quiz_data = st.quiz_data ∧
        (next_question st).state.current_question = st.current_question + 1 ∧
        (next_question st).state.answer_submitted = false ∧
        st.answer_submitted = true ∧
        st.current_question < st.quiz_data.length - 1) := by
  unfold next_question
  by_cases h : st.answer_submitted = true ∧
      st.current_question < st.quiz_data.length - 1
  · rw [dif_pos h]
    right
    exact ⟨rfl, rfl, rfl, h.1, h.2⟩
  · rw [dif_neg h]
    by_cases hl : st.quiz_data.length = 1
    · rw [if_pos hl]; left; rfl
    · rw [if_neg hl]; left; rfl

/-! ## Claims -/

/-- C1, counterexample: the claim asserts that routing
"give me a quiz with 3 questions" starts a quiz with count 3.  In the code
the third space-separated token of that query is "a", which is not a digit
string, so the count falls back to 5 — and even the spec's own
third-whitespace-token rule yields 5 on this query. -/
theorem C1_counterexample :
    chat_route ("give me a quiz with 3 questions".data) =
      some (RoutedAction.startQuiz 5)
    ∧ spec_quiz_count ("give me a quiz with 3 questions".data) = 5
    ∧ (5 : Nat) ≠ 3 :=
  ⟨by decide, by decide, by decide⟩

/-- C1, amended: for a quiz-classified query with at least three tokens
under `query.split(" ")` (single-space split, empty tokens kept), the count
passed to generation is the third such token read as a base-10 integer when
it is a decimal digit string and 5 otherwise; a quiz-classified query with
fewer than three such tokens raises an uncaught IndexError; and routing
"give me a quiz with 3 questions" starts a quiz with count 5, not 3. -/
theorem C1_amended (query a b t : List Char) (rest : List (List Char))
    (hq : pyContains (pyLower query) quizWord = true)
    (hsplit : pySplit query spaceSep = a :: b :: t :: rest) :
    chat_route query =
      some (RoutedAction.startQuiz (if pyIsDigit t then intOfDigits t else 5))
    ∧ (∀ query2 : List Char, pyContains (pyLower query2) quizWord = true →
        (pySplit query2 spaceSep).length ≤ 2 → chat_route query2 = none)
    ∧ chat_route ("give me a quiz with 3 questions".data) =
        some (RoutedAction.startQuiz 5) := by
  refine ⟨?_, ?_, by decide⟩
  · unfold chat_route quiz_count_of_query
    rw [if_pos hq, hsplit]
    rfl
  · intro query2 h1 h2
    unfold chat_route quiz_count_of_query
    rw [if_pos h1]
    rcases hl : pySplit query2 spaceSep with _ | ⟨x, _ | ⟨y, _ | ⟨z, r⟩⟩⟩
    · rfl
    · rfl
    · rfl
    · rw [hl] at h2
      simp at h2

/-- C1 witness: the amended rule applied to the concrete query
"give me a quiz with 3 questions". -/
theorem C1_witness :
    chat_route ("give me a quiz with 3 questions".data) =
      some (RoutedAction.startQuiz 5) := by
  have h := (C1_amended ("give me a quiz with 3 questions".data) ("give".data)
      ("me".data) ("a".data)
      (["quiz".data, "with".data, "3".data, "questions".data])
      (by decide) (by decide)).1
  have e : (if pyIsDigit ("a".data) then intOfDigits ("a".data) else 5) = 5 := by decide
  rw [e] at h
  exact h

/-- C2, counterexample: on the raw completion text "hello" (zero blocks
carry both markers) the generation returns the empty list, not the single
sentinel question the claim demands. -/
theorem C2_counterexample :
    generate_quiz_questions_with_rag (Except.ok ("hello".data)) 5 = []
    ∧ acceptedBlocks ("hello".data) = []
    ∧ generate_quiz_questions_with_rag (Except.ok ("hello".data)) 5 ≠
        [sentinelQuestion] :=
  ⟨by decide, by decide, by decide⟩

/-- C2, amended: when the completion text yields zero accepted blocks,
generation returns the empty sequence; the single sentinel question (error
prompt, empty option labels, correct label "N/A", fixed explanation
placeholder) is returned exactly when the completion call itself raises. -/
theorem C2_amended (text e : List Char) (k : Nat)
    (h : acceptedBlocks text = []) :
    generate_quiz_questions_with_rag (Except.ok text) k = []
    ∧ generate_quiz_questions_with_rag (Except.error e) k = [sentinelQuestion] := by
  constructor
  · show parse_quiz_text text k = []
    unfold parse_quiz_text
    unfold acceptedBlocks at h
    rw [h]
    simp
  · rfl

/-- C2 witness: the amended statement at the completion text "hello" and a
failing completion. -/
theorem C2_witness :
    generate_quiz_questions_with_rag (Except.ok ("hello".data)) 5 = []
    ∧ generate_quiz_questions_with_rag (Except.error ("boom".data)) 5 =
        [sentinelQuestion] :=
  C2_amended ("hello".data) ("boom".data) 5 (by decide)

/-- C3, counterexample: the claim says no input crashes the handlers, naming
quiz queries with fewer than three whitespace-separated tokens and
empty/whitespace-only answers.  Both crash: the query "quiz" raises
IndexError at `query.split(" ")[2]`, and a whitespace-only answer raises
IndexError at `user_answer.strip()[0]` while a question is active. -/
theorem C3_counterexample :
    chat_route ("quiz".data) = none
    ∧ submit_answer freshStateB ("   ".data) = none :=
  ⟨by decide, by decide⟩

/-- C3, amended: the handlers return without raising for every query that is
either not quiz-classified or has at least three space-separated tokens, and
for every submitted answer whose stripped text is non-empty; the two
remaining inputs (short quiz queries, answers that strip to empty while a
question is active) raise IndexError. -/
theorem C3_amended (query ans : List Char) (st : QuizState)
    (hq : pyContains (pyLower query) quizWord = true →
      3 ≤ (pySplit query spaceSep).length)
    (ha : pyStrip ans ≠ []) :
    (chat_route query).isSome = true ∧ (submit_answer st ans).isSome = true := by
  constructor
  · unfold chat_route
    by_cases hb : pyContains (pyLower query) quizWord = true
    · rw [if_pos hb]
      unfold quiz_count_of_query
      have h3 := hq hb
      rcases hl : pySplit query spaceSep with _ | ⟨x, _ | ⟨y, _ | ⟨z, r⟩⟩⟩
      · rw [hl] at h3; simp at h3
      · rw [hl] at h3; simp at h3
      · rw [hl] at h3; simp at h3
      · rfl
    · rw [if_neg hb]
      by_cases hs : (pyContains (pyLower query) summarizeWord ||
          pyContains (pyLower query) summariseWord) = true
      · rw [if_pos hs]; rfl
      · rw [if_neg hs]; rfl
  · unfold submit_answer
    by_cases hp : st.current_question < st.quiz_data.length
    · rw [dif_pos hp]
      rcases hc : pyStrip ans with _ | ⟨c, r⟩
      · exact absurd hc ha
      · rfl
    · rw [dif_neg hp]; rfl

/-- C3 witness: the amended statement at a three-token quiz query and a
non-blank answer in a fresh one-question session. -/
theorem C3_witness :
    (chat_route ("take quiz 3 now".data)).isSome = true
    ∧ (submit_answer freshStateB ("A".data)).isSome = true :=
  C3_amended ("take quiz 3 now".data) ("A".data) freshStateB
    (fun _ => by decide) (by decide)

/-- C4, counterexample: in a session that is already Submitted
(`answer_submitted = True`) with a valid position — hence not
AwaitingAnswer — `submit_answer` does not return the "no active question"
result the claim demands: it re-evaluates the answer and returns grading
feedback. -/
theorem C4_counterexample :
    submittedStateA.answer_submitted = true
    ∧ submit_answer submittedStateA ("A".data) =
        some { feedback := correctMsg, submit_interactive := false,
               next_interactive := true, state := submittedStateA }
    ∧ correctMsg ≠ noMoreQuestionsMsg :=
  ⟨by decide, by decide, by decide⟩

/-- C4, amended: `submit_answer` returns the "no active question" result
with the session state unchanged exactly when the position is out of range
(`position >= len(questions)`); the Submitted flag is not consulted, so a
valid position is re-evaluated even after submission.  In every returning
case the state is either unchanged or changed only by setting
`answer_submitted`, so the transition to Submitted happens only when an
answer is actually evaluated. -/
theorem C4_amended (st st2 : QuizState) (ans ans2 : List Char) (out : SubmitOut)
    (h : st.quiz_data.length ≤ st.current_question)
    (h2 : submit_answer st2 ans2 = some out) :
    submit_answer st ans =
      some { feedback := noMoreQuestionsMsg, submit_interactive := false,
             next_interactive := false, state := st }
    ∧ (out.state = st2 ∨ out.state = { st2 with answer_submitted := true }) := by
  constructor
  · unfold submit_answer
    rw [dif_neg (Nat.not_lt.mpr h)]
  · exact submit_answer_state_cases st2 ans2 out h2

/-- C4 witness: the amended statement at an empty session (position 0,
no questions) and a fresh one-question submission. -/
theorem C4_witness :
    submit_answer { quiz_data := [], current_question := 0, answer_submitted := false }
        ("A".data) =
      some { feedback := noMoreQuestionsMsg, submit_interactive := false,
             next_interactive := false,
             state := { quiz_data := [], current_question := 0,
                        answer_submitted := false } } :=
  (C4_amended
    { quiz_data := [], current_question := 0, answer_submitted := false }
    freshStateB ("A".data) ("B".data)
    { feedback := correctMsg, submit_interactive := false, next_interactive := true,
      state := { quiz_data := [questionB], current_question := 0,
                 answer_submitted := true } }
    (Nat.le_refl 0) (by decide)).1

/-- C5, counterexample: calling `next_question` before any submission on a
fresh two-question session leaves the state unchanged but reports
"Quiz completed!" with feedback "Quiz finished!", not the
"cannot advance yet." report the claim demands. -/
theorem C5_counterexample :
    next_question twoQuestionFresh =
      { question_box := quizCompletedMsg, choices := [], feedback := quizFinishedMsg,
        submit_interactive := false, next_interactive := false,
        state := twoQuestionFresh }
    ∧ quizFinishedMsg ≠ cannotAdvanceMsg
    ∧ quizCompletedMsg ≠ cannotAdvanceMsg :=
  ⟨by decide, by decide, by decide⟩

/-- C5, amended: while the current question is not submitted, `advance`
leaves the whole session state (including position) unchanged, but the
report is the quiz-finished text — "No more questions available!" when
exactly one question exists, else "Quiz completed!", with feedback
"Quiz finished!" and both buttons disabled — not a "cannot advance yet."
message. -/
theorem C5_amended (st : QuizState) (h : st.answer_submitted = false) :
    (next_question st).state = st
    ∧ (next_question st).feedback = quizFinishedMsg
    ∧ (next_question st).question_box =
        (if st.quiz_data.length = 1 then noMoreAvailableMsg else quizCompletedMsg)
    ∧ (next_question st).submit_interactive = false
    ∧ (next_question st).next_interactive = false := by
  have hneg : ¬(st.answer_submitted = true ∧
      st.current_question < st.quiz_data.length - 1) := by
    rintro ⟨h1, -⟩
    rw [h] at h1
    cases h1
  unfold next_question
  rw [dif_neg hneg]
  by_cases hl : st.quiz_data.length = 1
  · rw [if_pos hl, if_pos hl]
    exact ⟨rfl, rfl, rfl, rfl, rfl⟩
  · rw [if_neg hl, if_neg hl]
    exact ⟨rfl, rfl, rfl, rfl, rfl⟩

/-- C5 witness: the amended statement at the fresh two-question session. -/
theorem C5_witness :
    (next_question twoQuestionFresh).state = twoQuestionFresh
    ∧ (next_question twoQuestionFresh).feedback = quizFinishedMsg :=
  ⟨(C5_amended twoQuestionFresh (by decide)).1,
   (C5_amended twoQuestionFresh (by decide)).2.1⟩

/-- C6: parsing returns exactly the first min(N, k) accepted blocks, in
order of appearance, as parsed questions — truncation of the accepted
blocks, with blocks missing either marker dropped (they are absent from
`acceptedBlocks`) and never aborting the batch. -/
theorem C6_truncation (content : List Char) (k : Nat) :
    parse_quiz_text content k = ((acceptedBlocks content).take k).map parseBlock
    ∧ (parse_quiz_text content k).length = min (acceptedBlocks content).length k := by
  constructor
  · unfold parse_quiz_text acceptedBlocks
    rw [List.map_take]
  · unfold parse_quiz_text acceptedBlocks
    rw [List.length_take, List.length_map, Nat.min_comm]

/-- C7, counterexample: on a block whose correct-answer text is lowercase
"c", the parsed `correct_label` is "c", not the uppercased "C" the claim
demands — the parser trims but does not case-normalize. -/
theorem C7_counterexample :
    acceptBlock blockLowercase = true
    ∧ (parseBlock blockLowercase).correct_label = "c".data
    ∧ (parseBlock blockLowercase).correct_label ≠
        pyUpper (parseBlock blockLowercase).correct_label
    ∧ ("c".data : List Char) ≠ "C".data :=
  ⟨by decide, by decide, by decide, by decide⟩

/-- C7, amended: for a block that splits at the markers into a part before
"Correct Answer:", a part between the two markers, and a part after
"Explanation:", the parsed question has `prompt_text` the before-part
trimmed, `correct_label` the between-part trimmed but NOT case-normalized
(uppercasing happens only at answer comparison), `explanation` the
after-part trimmed, and `option_labels` the fixed A, B, C, D sequence
regardless of the options appearing in the block. -/
theorem C7_amended (b p r c e q2 : List Char)
    (h1 : pySplit b correctAnswerMarker = [p, r])
    (h2 : pySplit r explanationMarker = [c, e])
    (h3 : pySplit b explanationMarker = [q2, e]) :
    acceptBlock b = true
    ∧ parseBlock b =
        { prompt_text := pyStrip p
        , option_labels := ["A".data, "B".data, "C".data, "D".data]
        , correct_label := pyStrip c
        , explanation := pyStrip e } := by
  constructor
  · unfold acceptBlock
    rw [contains_of_pySplit_pair b correctAnswerMarker p r h1,
        contains_of_pySplit_pair b explanationMarker q2 e h3]
    rfl
  · unfold parseBlock
    rw [h1, h3]
    simp [List.getLastD, h2]

/-- C7 witness: the amended extraction at the concrete lowercase block. -/
theorem C7_witness :
    acceptBlock blockLowercase = true
    ∧ parseBlock blockLowercase =
        { prompt_text := pyStrip ("Question: Q?\n".data)
        , option_labels := ["A".data, "B".data, "C".data, "D".data]
        , correct_label := pyStrip (" c\n".data)
        , explanation := pyStrip (" because".data) } :=
  C7_amended blockLowercase ("Question: Q?\n".data)
    (" c\nExplanation: because".data) (" c\n".data) (" because".data)
    ("Question: Q?\nCorrect Answer: c\n".data)
    (by decide) (by decide) (by decide)

/-- C8, counterexample: for `selected_label = " b"` (leading space) against
`correct_label = "B"`, the claim's rule — first character of the supplied
label, uppercased — compares " " with "B" and says incorrect, but the code
strips the label before taking its first character and grades it correct. -/
theorem C8_counterexample :
    spec_first_char_is_correct (" b".data) ("B".data) = false
    ∧ submit_answer freshStateB (" b".data) =
        some { feedback := correctMsg, submit_interactive := false,
               next_interactive := true,
               state := { quiz_data := [questionB], current_question := 0,
                          answer_submitted := true } } :=
  ⟨by decide, by decide⟩

/-- C8, amended: `submit_answer` first strips `selected_label`; on a
non-empty result it takes the first character, uppercases it, and compares
the one-character string with the stripped, uppercased `correct_label`
(raising IndexError when the label strips to empty).  The outcome therefore
depends only on the uppercased first character of the stripped label: two
labels agreeing there — e.g. "b) option text" and "B" — produce identical
results, regardless of case or trailing text, and the evaluated state
transition sets `answer_submitted`. -/
theorem C8_amended (st : QuizState) (sel sel2 : List Char) (c c2 : Char)
    (rest rest2 : List Char)
    (hpos : st.current_question < st.quiz_data.length)
    (hsel : pyStrip sel = c :: rest)
    (hsel2 : pyStrip sel2 = c2 :: rest2)
    (hc : c.toUpper = c2.toUpper) :
    submit_answer st sel = submit_answer st sel2
    ∧ (submit_answer st sel).map SubmitOut.state =
        some { st with answer_submitted := true }
    ∧ (submit_answer st sel).map SubmitOut.feedback =
        some (if [c.toUpper] == pyUpper (pyStrip
            (st.quiz_data.get ⟨st.current_question, hpos⟩).correct_label)
          then correctMsg
          else incorrectMsgA ++
            (st.quiz_data.get ⟨st.current_question, hpos⟩).correct_label ++
            incorrectMsgB ++
            (st.quiz_data.get ⟨st.current_question, hpos⟩).explanation) := by
  have e1 : submit_answer st sel =
      some { feedback :=
               if [c.toUpper] == pyUpper (pyStrip
                   (st.quiz_data.get ⟨st.current_question, hpos⟩).correct_label)
               then correctMsg
               else incorrectMsgA ++
                 (st.quiz_data.get ⟨st.current_question, hpos⟩).correct_label ++
                 incorrectMsgB ++
                 (st.quiz_data.get ⟨st.current_question, hpos⟩).explanation
           , submit_interactive := false
           , next_interactive := true
           , state := { st with answer_submitted := true } } := by
    unfold submit_answer
    rw [dif_pos hpos, hsel]
  have e2 : submit_answer st sel2 =
      some { feedback :=
               if [c2.toUpper] == pyUpper (pyStrip
                   (st.quiz_data.get ⟨st.current_question, hpos⟩).correct_label)
               then correctMsg
               else incorrectMsgA ++
                 (st.quiz_data.get ⟨st.current_question, hpos⟩).correct_label ++
                 incorrectMsgB ++
                 (st.quiz_data.get ⟨st.current_question, hpos⟩).explanation
           , submit_interactive := false
           , next_interactive := true
           , state := { st with answer_submitted := true } } := by
    unfold submit_answer
    rw [dif_pos hpos, hsel2]
  refine ⟨?_, ?_, ?_⟩
  · rw [e1, e2, hc]
  · rw [e1]; rfl
  · rw [e1]; rfl

/-- C8 witness: the amended statement grading "b) option text" and "B"
identically in a fresh one-question session. -/
theorem C8_witness :
    submit_answer freshStateB ("b) option text".data) =
      submit_answer freshStateB ("B".data)
    ∧ (submit_answer freshStateB ("b) option text".data)).map SubmitOut.state =
        some { quiz_data := [questionB], current_question := 0,
               answer_submitted := true } :=
  ⟨(C8_amended freshStateB ("b) option text".data) ("B".data) 'b' 'B'
      (") option text".data) [] (by decide) (by decide) (by decide) (by decide)).1,
   (C8_amended freshStateB ("b) option text".data) ("B".data) 'b' 'B'
      (") option text".data) [] (by decide) (by decide) (by decide) (by decide)).2.1⟩

/-- C9: in a Submitted session whose position is the last index
(position + 1 = number of questions, covering the one-question quiz),
`advance` reports the finished text with no next question, disables both
buttons, and leaves the whole state — in particular the position —
unchanged. -/
theorem C9_last_question_finishes (st : QuizState)
    (_h1 : st.answer_submitted = true)
    (h2 : st.current_question + 1 = st.quiz_data.length) :
    next_question st =
      { question_box := (if st.quiz_data.length = 1 then noMoreAvailableMsg
          else quizCompletedMsg)
      , choices := []
      , feedback := quizFinishedMsg
      , submit_interactive := false
      , next_interactive := false
      , state := st } := by
  have hneg : ¬(st.answer_submitted = true ∧
      st.current_question < st.quiz_data.length - 1) := by
    rintro ⟨-, hlt⟩
    omega
  unfold next_question
  rw [dif_neg hneg]
  by_cases hl : st.quiz_data.length = 1
  · rw [if_pos hl, if_pos hl]
  · rw [if_neg hl, if_neg hl]

/-- C9 witness: a one-question quiz after its single submission finishes
directly. -/
theorem C9_witness :
    next_question oneQuestionSubmittedA =
      { question_box := noMoreAvailableMsg, choices := [],
        feedback := quizFinishedMsg, submit_interactive := false,
        next_interactive := false, state := oneQuestionSubmittedA } := by
  have h := C9_last_question_finishes oneQuestionSubmittedA rfl (by decide)
  have e : (if oneQuestionSubmittedA.quiz_data.length = 1 then noMoreAvailableMsg
      else quizCompletedMsg) = noMoreAvailableMsg := by decide
  rw [e] at h
  exact h

/-- C10: the invariant `position <= len(questions)` holds in every reachable
session state — quiz creation resets the position to 0, `submit_answer`
never changes it, and `next_question` increments it only below the last
index. -/
theorem C10_position_invariant (st : QuizState) (h : Reachable st) :
    st.current_question ≤ st.quiz_data.length := by
  induction h with
  | init => exact Nat.le_refl 0
  | start st qs hr ih => exact Nat.zero_le _
  | submit st ans out hr hs ih =>
    rcases submit_answer_state_cases st ans out hs with h1 | h1
    · rw [h1]; exact ih
    · rw [h1]; exact ih
  | next st hr ih =>
    rcases next_question_state_cases st with h1 | ⟨hq, hc, -, -, hlt⟩
    · rw [h1]; exact ih
    · rw [hq, hc]; omega

/-- C10 witness: the invariant at the initial session state. -/
theorem C10_witness :
    ({ quiz_data := [], current_question := 0, answer_submitted := false } :
        QuizState).current_question ≤
      ({ quiz_data := [], current_question := 0, answer_submitted := false } :
        QuizState).quiz_data.length :=
  C10_position_invariant _ Reachable.init
